import Mathlib

/-!
Shallow embedding of the command dispatch and request/response correlation
bridge of the repository (rust_module).  Sources embedded:

* src/rust_module/src/application/usecase/mod.rs        (General::execute)
* src/rust_module/src/application/usecase/peer/create.rs (Create::execute)
* src/rust_module/src/infra/mod.rs                       (RepositoryImpl::register, RepositoryImpl::receive_event)
* src/rust_module/src/lib.rs                             (GlobalStateImpl store/find/remove operations)

Asynchronous channel interactions are embedded as explicit environment
parameters: the repository trait object becomes a function argument, the
command channel send outcome a Bool, the oneshot correlation slot an
Option, and the event channel a list of per-iteration poll outcomes.
Side effects (register calls, callback invocations, send attempts) are
returned as explicit traces so that call counts can be stated.
-/

/-- Error taxonomy of the source (error::Error): LocalError carries a
human readable message, SerdeError wraps a payload parse failure (the
DecodeError of the specification). -/
inductive Error where
  | LocalError (message : String)
  | SerdeError (error : String)
deriving DecidableEq, Repr

/-- Parameters of a create-peer request (CreatePeerParams in the source). -/
structure CreatePeerParams where
  key : String
  domain : String
  peer_id : String
  turn : Bool
deriving DecidableEq, Repr

/-- Parameters of a delete-peer request. -/
structure DeletePeerParams where
  peer_id : String
  token : String
deriving DecidableEq, Repr

/-- Peer-family request body (PeerServiceParams in the source): one
command per variant. -/
inductive PeerServiceParams where
  | create (params : CreatePeerParams)
  | delete (params : DeletePeerParams)
deriving DecidableEq, Repr

/-- Decoded request DTO (RequestDto in the source): a discriminated union
over operation families, plus the Test variant used by the unit tests. -/
inductive RequestDto where
  | peer (inner : PeerServiceParams)
  | data (raw : String)
  | media (raw : String)
  | test
deriving DecidableEq, Repr

/-- Domain entity request (Request in the source); General::execute and
Create::execute wrap the peer DTO body into Request::Peer unchanged. -/
inductive Request where
  | peer (inner : PeerServiceParams)
  | data (raw : String)
  | media (raw : String)
deriving DecidableEq, Repr

/-- Debug rendering of CreatePeerParams, mirroring the derived Debug
output of the source (brace-free rendering of the same fields). -/
def CreatePeerParams.debugFmt (p : CreatePeerParams) : String :=
  "CreatePeerParams(key: \"" ++ p.key ++ "\", domain: \"" ++ p.domain ++
    "\", peer_id: PeerId(\"" ++ p.peer_id ++ "\"), turn: " ++
    (if p.turn then "true" else "false") ++ ")"

/-- Debug rendering of DeletePeerParams. -/
def DeletePeerParams.debugFmt (p : DeletePeerParams) : String :=
  "DeletePeerParams(peer_id: PeerId(\"" ++ p.peer_id ++ "\"), token: Token(\"" ++
    p.token ++ "\"))"

/-- Debug rendering of PeerServiceParams. -/
def PeerServiceParams.debugFmt : PeerServiceParams → String
  | PeerServiceParams.create params => "Create(params: " ++ params.debugFmt ++ ")"
  | PeerServiceParams.delete params => "Delete(params: " ++ params.debugFmt ++ ")"

/-- Debug rendering of a RequestDto, used by the wrong-parameter error
messages of both execute implementations (format wrong parameter). -/
def RequestDto.debugFmt : RequestDto → String
  | RequestDto.peer inner => "Peer(" ++ inner.debugFmt ++ ")"
  | RequestDto.data raw => "Data(" ++ raw ++ ")"
  | RequestDto.media raw => "Media(" ++ raw ++ ")"
  | RequestDto.test => "Test"

/-- Modelled from the spec: serialization of a Request to its wire
payload (Stringify::to_string, domain entity code not under src/) always
succeeds for well-formed Request variants; the bridge only needs the
payload as an opaque string, so a structural rendering is used. -/
def Request.to_string : Request → String
  | Request.peer inner => "PEER:" ++ inner.debugFmt
  | Request.data raw => "DATA:" ++ raw
  | Request.media raw => "MEDIA:" ++ raw

/-- Peer info payload carried by peer responses (peer_id and token). -/
structure PeerInfo where
  peer_id : String
  token : String
deriving DecidableEq, Repr

/-- Peer-family response body (PeerResponseMessageBodyEnum in the
source): one command per variant. -/
inductive PeerResponseMessageBodyEnum where
  | create (info : PeerInfo)
  | delete (info : PeerInfo)
deriving DecidableEq, Repr

/-- Response body over operation families (ResponseMessageBodyEnum). -/
inductive ResponseMessageBodyEnum where
  | peer (body : PeerResponseMessageBodyEnum)
  | media (raw : String)
  | data (raw : String)
deriving DecidableEq, Repr

/-- Domain entity response (Response in the source, used by create.rs and
by the infra layer): Success carrying a family body, or a structured
domain-level failure. -/
inductive Response where
  | success (body : ResponseMessageBodyEnum)
  | error (e : String)
deriving DecidableEq, Repr

/-- Peer-family response DTO body (PeerDtoResponseMessageBodyEnum);
create.rs moves the PeerInfo of the entity into it unchanged. -/
inductive PeerDtoResponseMessageBodyEnum where
  | create (info : PeerInfo)
  | delete (info : PeerInfo)
deriving DecidableEq, Repr

/-- Response DTO body over families (ResponseDtoMessageBodyEnum). -/
inductive ResponseDtoMessageBodyEnum where
  | peer (body : PeerDtoResponseMessageBodyEnum)
  | media (raw : String)
  | data (raw : String)
deriving DecidableEq, Repr

/-- Response DTO returned by create.rs (ResponseDto in that snapshot). -/
inductive ResponseDto where
  | success (body : ResponseDtoMessageBodyEnum)
  | error (e : String)
deriving DecidableEq, Repr

/-- Callback table handed to the C++ side (Functions in the source); the
embedding records invocations in a trace, so the table itself carries no
data. -/
structure Functions where
deriving DecidableEq, Repr

/-- Decidable equality for Except values, component-wise. -/
instance exceptDecidableEq {e a : Type} [DecidableEq e] [DecidableEq a] :
    DecidableEq (Except e a) := fun x y =>
  match x, y with
  | Except.ok u, Except.ok v =>
    if h : u = v then isTrue (by rw [h]) else isFalse (by simp [h])
  | Except.error u, Except.error v =>
    if h : u = v then isTrue (by rw [h]) else isFalse (by simp [h])
  | Except.ok _, Except.error _ => isFalse (by simp)
  | Except.error _, Except.ok _ => isFalse (by simp)

/-- Result of one run of Create::execute: the returned value, the trace
of register calls made on the repository, and the trace of create-peer
callback invocations (peer_id, token). -/
structure CreateRun where
  result : Except Error ResponseDto
  registered : List Request
  callbacks : List (String × String)
deriving DecidableEq, Repr

/-- Create::execute from application/usecase/peer/create.rs.  The
repository trait object is the register argument; FUNCTIONS_INSTANCE is
the functionsInstance argument (none when the OnceCell was never filled).
On a Peer request it performs the round trip; only the Ok Peer-Create
Success outcome is returned as a success (after optionally invoking the
create-peer callback).  Every other outcome, and every non-Peer request,
falls through to LocalError (wrong parameter ++ rendering of the request
DTO), because the inner shadowing of message ends with the if-let block. -/
def Create.execute (functionsInstance : Option Functions)
    (register : Request → Except Error Response)
    (message : RequestDto) : CreateRun :=
  match message with
  | RequestDto.peer inner =>
    let request := Request.peer inner
    match register request with
    | Except.ok (Response.success (ResponseMessageBodyEnum.peer
        (PeerResponseMessageBodyEnum.create peerInfo))) =>
      let callbacks :=
        match functionsInstance with
        | some _ => [(peerInfo.peer_id, peerInfo.token)]
        | none => []
      CreateRun.mk
        (Except.ok (ResponseDto.success (ResponseDtoMessageBodyEnum.peer
          (PeerDtoResponseMessageBodyEnum.create peerInfo))))
        [request] callbacks
    | _ =>
      CreateRun.mk
        (Except.error (Error.LocalError
          ("wrong parameter " ++ (RequestDto.peer inner).debugFmt)))
        [request] []
  | m =>
    CreateRun.mk
      (Except.error (Error.LocalError ("wrong parameter " ++ m.debugFmt)))
      [] []

/-- Domain entity response of the mod.rs snapshot
(domain::entity::response::Response): one variant per family. -/
inductive general.Response where
  | peer (body : PeerResponseMessageBodyEnum)
  | media (raw : String)
  | data (raw : String)
deriving DecidableEq, Repr

/-- Result entity of the mod.rs snapshot (ResponseResult): Success or a
structured domain-level failure. -/
inductive general.ResponseResult where
  | success (r : general.Response)
  | error (e : String)
deriving DecidableEq, Repr

/-- Modelled from the spec: PeerResponseDto::from_entity
(application/dto, not under src/) converts the peer entity payload into
its DTO; modelled as an injective wrapper around the entity. -/
structure general.PeerResponseDto where
  entity : PeerResponseMessageBodyEnum
deriving DecidableEq, Repr

/-- Modelled from the spec: MediaResponseDto::from_entity, as an
injective wrapper around the media entity payload. -/
structure general.MediaResponseDto where
  entity : String
deriving DecidableEq, Repr

/-- Modelled from the spec: DataResponseDto::from_entity, as an
injective wrapper around the data entity payload. -/
structure general.DataResponseDto where
  entity : String
deriving DecidableEq, Repr

/-- Wrapper of PeerResponseDto construction (from_entity in the source). -/
def general.PeerResponseDto.from_entity (p : PeerResponseMessageBodyEnum) :
    general.PeerResponseDto := general.PeerResponseDto.mk p

/-- Wrapper of MediaResponseDto construction (from_entity in the source). -/
def general.MediaResponseDto.from_entity (m : String) :
    general.MediaResponseDto := general.MediaResponseDto.mk m

/-- Wrapper of DataResponseDto construction (from_entity in the source). -/
def general.DataResponseDto.from_entity (d : String) :
    general.DataResponseDto := general.DataResponseDto.mk d

/-- Response DTO of the mod.rs snapshot (ResponseDto there): one variant
per family. -/
inductive general.ResponseDto where
  | peer (p : general.PeerResponseDto)
  | media (m : general.MediaResponseDto)
  | data (d : general.DataResponseDto)
deriving DecidableEq, Repr

/-- Result DTO of the mod.rs snapshot (ResponseDtoResult). -/
inductive general.ResponseDtoResult where
  | success (r : general.ResponseDto)
  | error (e : String)
deriving DecidableEq, Repr

/-- Result of one run of General::execute: the returned value and the
trace of register calls made on the repository. -/
structure GeneralRun where
  result : Except Error general.ResponseDtoResult
  registered : List Request
deriving DecidableEq, Repr

/-- General::execute from application/usecase/mod.rs.  On a Peer request
it performs the round trip; a register error propagates unchanged (the
question-mark operator), an Ok Success is mapped to a Success DTO of the
same family via from_entity, and an Ok structured failure is returned as
Ok Error unchanged.  Any non-Peer request falls through to LocalError
(wrong parameter ++ rendering of the request) without touching the
repository. -/
def General.execute (register : Request → Except Error general.ResponseResult)
    (message : RequestDto) : GeneralRun :=
  match message with
  | RequestDto.peer inner =>
    let request := Request.peer inner
    match register request with
    | Except.error e => GeneralRun.mk (Except.error e) [request]
    | Except.ok (general.ResponseResult.success (general.Response.peer peer)) =>
      GeneralRun.mk
        (Except.ok (general.ResponseDtoResult.success (general.ResponseDto.peer
          (general.PeerResponseDto.from_entity peer)))) [request]
    | Except.ok (general.ResponseResult.success (general.Response.media media)) =>
      GeneralRun.mk
        (Except.ok (general.ResponseDtoResult.success (general.ResponseDto.media
          (general.MediaResponseDto.from_entity media)))) [request]
    | Except.ok (general.ResponseResult.success (general.Response.data data)) =>
      GeneralRun.mk
        (Except.ok (general.ResponseDtoResult.success (general.ResponseDto.data
          (general.DataResponseDto.from_entity data)))) [request]
    | Except.ok (general.ResponseResult.error error) =>
      GeneralRun.mk (Except.ok (general.ResponseDtoResult.error error)) [request]
  | m =>
    GeneralRun.mk
      (Except.error (Error.LocalError ("wrong parameter " ++ m.debugFmt))) []

/-- Modelled from the spec: a wire payload delivered by the worker is
either well-formed (it parses into exactly one Response) or structurally
invalid, in which case the raw text stands for the underlying parse
failure.  The JSON decoder itself (Response::from_str, domain entity
code not under src/) is embedded semantically by this dichotomy, per the
data-model invariant that decoding always yields exactly one of Success
or Error and that partial or ambiguous JSON is a decode failure. -/
inductive Payload where
  | wellFormed (r : Response)
  | malformed (raw : String)
deriving DecidableEq, Repr

/-- Modelled from the spec: Response::from_str decodes a wire payload; a
structurally invalid payload yields a DecodeError (Error::SerdeError in
the source taxonomy) wrapping the underlying parse failure. -/
def Response.from_str : Payload → Except Error Response
  | Payload.wellFormed r => Except.ok r
  | Payload.malformed raw => Except.error (Error.SerdeError raw)

/-- Result of one run of RepositoryImpl::register: the returned value
and the trace of payloads whose send was attempted on the command
channel (one entry per send attempt, so no-retry is visible). -/
structure RegisterRun where
  result : Except Error Response
  sent : List String
deriving DecidableEq, Repr

/-- RepositoryImpl::register from infra/mod.rs.  The environment is
explicit: senderOpen is false when the command channel is closed so that
send fails, and slot is the content of the freshly created oneshot
correlation slot at await time (none when the sender side was dropped
without a value, some payload when the worker filled it).  The request
is serialized, sent once, and the reply is decoded; each failure maps to
its own error exactly as in the source. -/
def RepositoryImpl.register (senderOpen : Bool) (slot : Option Payload)
    (params : Request) : RegisterRun :=
  let message := params.to_string
  if senderOpen then
    match slot with
    | none =>
      RegisterRun.mk
        (Except.error (Error.LocalError "could not receive response from skyway crate"))
        [message]
    | some payload => RegisterRun.mk (Response.from_str payload) [message]
  else
    RegisterRun.mk
      (Except.error (Error.LocalError "could not send request to skyway crate"))
      [message]

/-- Outcome of one bounded wait on the event channel inside
receive_event: a payload arrived within the poll interval, the channel
reported closure (producer dropped), or the wait timed out. -/
inductive PollOutcome where
  | value (p : Payload)
  | closed
  | timeout
deriving DecidableEq, Repr

/-- Loop body of RepositoryImpl::receive_event: at iteration i the
shutdown flag is read first; while it is false the next poll outcome is
consumed: a value is decoded and returned immediately, closure returns
LocalError (receiver is closed), a timeout re-enters the loop.  When the
flag is observed true the loop exits with the shutdown LocalError.  The
finite outcome list is the observation window; none means the loop was
still polling when the window ended. -/
def RepositoryImpl.receiveEventGo (shuttingDown : Nat → Bool) :
    Nat → List PollOutcome → Option (Except Error Response)
  | i, polls =>
    if shuttingDown i then
      some (Except.error (Error.LocalError "ros has been shut down"))
    else
      match polls with
      | [] => none
      | PollOutcome.value p :: _ => some (Response.from_str p)
      | PollOutcome.closed :: _ =>
        some (Except.error (Error.LocalError "receiver is closed"))
      | PollOutcome.timeout :: rest =>
        RepositoryImpl.receiveEventGo shuttingDown (i + 1) rest

/-- RepositoryImpl::receive_event from infra/mod.rs, as the loop started
at iteration 0 over the given observation window. -/
def RepositoryImpl.receive_event (shuttingDown : Nat → Bool)
    (polls : List PollOutcome) : Option (Except Error Response) :=
  RepositoryImpl.receiveEventGo shuttingDown 0 polls

/-- Key of the data-connection store (an opaque string minted by the
backend worker). -/
abbrev DataConnectionId := String

/-- Key of the media-connection store. -/
abbrev MediaConnectionId := String

/-- Value stored per data connection (ffi::DataConnectionResponse, whose
fields are opaque to the store; embedded as its payload). -/
structure DataConnectionResponse where
  raw : String
deriving DecidableEq, Repr

/-- Value stored per media connection (CallResponseDto, opaque to the
store; embedded as its payload). -/
structure CallResponseDto where
  raw : String
deriving DecidableEq, Repr

/-- State of the two independent keyed stores held by the lib.rs
OnceCells (DATA_CONNECTION_STATE_INSTANCE and
MEDIA_CONNECTION_STATE_INSTANCE), each a HashMap embedded as a total
function to Option. -/
structure GlobalStateData where
  dataConnectionState : DataConnectionId → Option DataConnectionResponse
  mediaConnectionState : MediaConnectionId → Option CallResponseDto

/-- GlobalStateImpl::store_topic: HashMap::insert on the data store. -/
def GlobalStateImpl.store_topic (s : GlobalStateData) (k : DataConnectionId)
    (v : DataConnectionResponse) : GlobalStateData :=
  GlobalStateData.mk
    (fun q => if q = k then some v else s.dataConnectionState q)
    s.mediaConnectionState

/-- GlobalStateImpl::find_topic: HashMap::get on the data store, cloned
into an owned copy. -/
def GlobalStateImpl.find_topic (s : GlobalStateData) (k : DataConnectionId) :
    Option DataConnectionResponse :=
  s.dataConnectionState k

/-- GlobalStateImpl::remove_topic: HashMap::remove on the data store. -/
def GlobalStateImpl.remove_topic (s : GlobalStateData) (k : DataConnectionId) :
    GlobalStateData :=
  GlobalStateData.mk
    (fun q => if q = k then none else s.dataConnectionState q)
    s.mediaConnectionState

/-- GlobalStateImpl::store_call_response: HashMap::insert on the media
store. -/
def GlobalStateImpl.store_call_response (s : GlobalStateData)
    (k : MediaConnectionId) (v : CallResponseDto) : GlobalStateData :=
  GlobalStateData.mk s.dataConnectionState
    (fun q => if q = k then some v else s.mediaConnectionState q)

/-- GlobalStateImpl::find_call_response: HashMap::get on the media
store, cloned into an owned copy. -/
def GlobalStateImpl.find_call_response (s : GlobalStateData)
    (k : MediaConnectionId) : Option CallResponseDto :=
  s.mediaConnectionState k

/-- Modelled from the spec: the removal operation of the media store
(the GlobalState trait in src/ exposes store and find for the media
store; the teardown path that removes a media entry lives outside src/).
Per the cache contract it is HashMap::remove on the media store. -/
def GlobalStateImpl.remove_call_response (s : GlobalStateData)
    (k : MediaConnectionId) : GlobalStateData :=
  GlobalStateData.mk s.dataConnectionState
    (fun q => if q = k then none else s.mediaConnectionState q)

/-- C1 counterexample: a well-formed structured-error response is NOT
always returned as Ok Error by a recognized handler.  Create::execute,
given a Peer request whose round trip completes with the Ok structured
failure Response.error, converts it into a raised LocalError rendering
the request, contradicting the claim at this concrete input. -/
theorem c1_counterexample :
    (Create.execute none (fun _ => Except.ok (Response.error "DOMAIN_FAILURE"))
        (RequestDto.peer (PeerServiceParams.create
          (CreatePeerParams.mk "key" "localhost" "peer_id" true)))).result =
      Except.error (Error.LocalError ("wrong parameter " ++
        (RequestDto.peer (PeerServiceParams.create
          (CreatePeerParams.mk "key" "localhost" "peer_id" true))).debugFmt)) ∧
    decide ((Create.execute none (fun _ => Except.ok (Response.error "DOMAIN_FAILURE"))
        (RequestDto.peer (PeerServiceParams.create
          (CreatePeerParams.mk "key" "localhost" "peer_id" true)))).result =
      Except.ok (ResponseDto.error "DOMAIN_FAILURE")) = false :=
  ⟨rfl, by decide⟩

/-- C1 (amended): on a recognized Peer request whose round trip completes
with an Ok result, General::execute invokes exactly one registration
round trip and returns the Ok result unchanged (Success per family via
from_entity, structured failure as Ok Error); Create::execute also
invokes exactly one round trip but passes through only the Peer-Create
Success response, converting every other Ok result, including a
structured-error response, into a raised LocalError that renders the
request. -/
theorem c1_ok_passthrough
    (regG : Request → Except Error general.ResponseResult)
    (regC : Request → Except Error Response)
    (inner : PeerServiceParams) (fns : Option Functions) :
    (∀ p, regG (Request.peer inner) =
        Except.ok (general.ResponseResult.success (general.Response.peer p)) →
      General.execute regG (RequestDto.peer inner) =
        GeneralRun.mk (Except.ok (general.ResponseDtoResult.success
          (general.ResponseDto.peer (general.PeerResponseDto.from_entity p))))
          [Request.peer inner]) ∧
    (∀ m, regG (Request.peer inner) =
        Except.ok (general.ResponseResult.success (general.Response.media m)) →
      General.execute regG (RequestDto.peer inner) =
        GeneralRun.mk (Except.ok (general.ResponseDtoResult.success
          (general.ResponseDto.media (general.MediaResponseDto.from_entity m))))
          [Request.peer inner]) ∧
    (∀ d, regG (Request.peer inner) =
        Except.ok (general.ResponseResult.success (general.Response.data d)) →
      General.execute regG (RequestDto.peer inner) =
        GeneralRun.mk (Except.ok (general.ResponseDtoResult.success
          (general.ResponseDto.data (general.DataResponseDto.from_entity d))))
          [Request.peer inner]) ∧
    (∀ e, regG (Request.peer inner) =
        Except.ok (general.ResponseResult.error e) →
      General.execute regG (RequestDto.peer inner) =
        GeneralRun.mk (Except.ok (general.ResponseDtoResult.error e))
          [Request.peer inner]) ∧
    (∀ info, regC (Request.peer inner) =
        Except.ok (Response.success (ResponseMessageBodyEnum.peer
          (PeerResponseMessageBodyEnum.create info))) →
      Create.execute fns regC (RequestDto.peer inner) =
        CreateRun.mk (Except.ok (ResponseDto.success (ResponseDtoMessageBodyEnum.peer
          (PeerDtoResponseMessageBodyEnum.create info))))
          [Request.peer inner]
          (match fns with
           | some _ => [(info.peer_id, info.token)]
           | none => [])) ∧
    (∀ r, regC (Request.peer inner) = Except.ok r →
      (∀ info, decide (r = Response.success (ResponseMessageBodyEnum.peer
        (PeerResponseMessageBodyEnum.create info))) = false) →
      (Create.execute fns regC (RequestDto.peer inner)).result =
        Except.error (Error.LocalError ("wrong parameter " ++
          (RequestDto.peer inner).debugFmt)) ∧
      (Create.execute fns regC (RequestDto.peer inner)).registered =
        [Request.peer inner]) := by
  refine ⟨?_, ?_, ?_, ?_, ?_, ?_⟩
  · intro p h; simp [General.execute, h]
  · intro m h; simp [General.execute, h]
  · intro d h; simp [General.execute, h]
  · intro e h; simp [General.execute, h]
  · intro info h; simp [Create.execute, h]
  · intro r h hne
    rcases r with body | e
    · rcases body with pb | m | d
      · rcases pb with info | info
        · have := hne info
          simp at this
        · exact ⟨by simp [Create.execute, h], by simp [Create.execute, h]⟩
      · exact ⟨by simp [Create.execute, h], by simp [Create.execute, h]⟩
      · exact ⟨by simp [Create.execute, h], by simp [Create.execute, h]⟩
    · exact ⟨by simp [Create.execute, h], by simp [Create.execute, h]⟩

/-- C1 witness: every clause of the amended passthrough theorem, applied
at concrete registers and a concrete Peer request. -/
theorem c1_ok_passthrough_witness :
    General.execute (fun _ => Except.ok (general.ResponseResult.success
        (general.Response.peer (PeerResponseMessageBodyEnum.delete (PeerInfo.mk "id" "tok")))))
        (RequestDto.peer (PeerServiceParams.delete (DeletePeerParams.mk "p" "t"))) =
      GeneralRun.mk (Except.ok (general.ResponseDtoResult.success
        (general.ResponseDto.peer (general.PeerResponseDto.from_entity
          (PeerResponseMessageBodyEnum.delete (PeerInfo.mk "id" "tok"))))))
        [Request.peer (PeerServiceParams.delete (DeletePeerParams.mk "p" "t"))] ∧
    General.execute (fun _ => Except.ok (general.ResponseResult.error "E"))
        (RequestDto.peer (PeerServiceParams.delete (DeletePeerParams.mk "p" "t"))) =
      GeneralRun.mk (Except.ok (general.ResponseDtoResult.error "E"))
        [Request.peer (PeerServiceParams.delete (DeletePeerParams.mk "p" "t"))] ∧
    Create.execute none (fun _ => Except.ok (Response.success (ResponseMessageBodyEnum.peer
        (PeerResponseMessageBodyEnum.create (PeerInfo.mk "id" "tok")))))
        (RequestDto.peer (PeerServiceParams.delete (DeletePeerParams.mk "p" "t"))) =
      CreateRun.mk (Except.ok (ResponseDto.success (ResponseDtoMessageBodyEnum.peer
        (PeerDtoResponseMessageBodyEnum.create (PeerInfo.mk "id" "tok")))))
        [Request.peer (PeerServiceParams.delete (DeletePeerParams.mk "p" "t"))] [] ∧
    (Create.execute none (fun _ => Except.ok (Response.error "E"))
        (RequestDto.peer (PeerServiceParams.delete (DeletePeerParams.mk "p" "t")))).result =
      Except.error (Error.LocalError ("wrong parameter " ++
        (RequestDto.peer (PeerServiceParams.delete (DeletePeerParams.mk "p" "t"))).debugFmt)) :=
  ⟨(c1_ok_passthrough
      (fun _ => Except.ok (general.ResponseResult.success
        (general.Response.peer (PeerResponseMessageBodyEnum.delete (PeerInfo.mk "id" "tok")))))
      (fun _ => Except.ok (Response.error "E"))
      (PeerServiceParams.delete (DeletePeerParams.mk "p" "t")) none).1
      (PeerResponseMessageBodyEnum.delete (PeerInfo.mk "id" "tok")) rfl,
   (c1_ok_passthrough
      (fun _ => Except.ok (general.ResponseResult.error "E"))
      (fun _ => Except.ok (Response.error "E"))
      (PeerServiceParams.delete (DeletePeerParams.mk "p" "t")) none).2.2.2.1 "E" rfl,
   (c1_ok_passthrough
      (fun _ => Except.ok (general.ResponseResult.error "E"))
      (fun _ => Except.ok (Response.success (ResponseMessageBodyEnum.peer
        (PeerResponseMessageBodyEnum.create (PeerInfo.mk "id" "tok")))))
      (PeerServiceParams.delete (DeletePeerParams.mk "p" "t")) none).2.2.2.2.1
      (PeerInfo.mk "id" "tok") rfl,
   ((c1_ok_passthrough
      (fun _ => Except.ok (general.ResponseResult.error "E"))
      (fun _ => Except.ok (Response.error "E"))
      (PeerServiceParams.delete (DeletePeerParams.mk "p" "t")) none).2.2.2.2.2
      (Response.error "E") rfl (fun _ => rfl)).1⟩

/-- C2 counterexample: Create::execute does not return a bridge error
unchanged.  With the bridge returning LocalError error on a Peer
request, Create::execute returns a LocalError rendering the request
instead of the bridge error (this mirrors the fail unit test of
create.rs, which asserts exactly this replacement). -/
theorem c2_counterexample :
    (Create.execute none (fun _ => Except.error (Error.LocalError "error"))
        (RequestDto.peer (PeerServiceParams.create
          (CreatePeerParams.mk "key" "localhost" "peer_id" true)))).result =
      Except.error (Error.LocalError ("wrong parameter " ++
        (RequestDto.peer (PeerServiceParams.create
          (CreatePeerParams.mk "key" "localhost" "peer_id" true))).debugFmt)) ∧
    decide ((Create.execute none (fun _ => Except.error (Error.LocalError "error"))
        (RequestDto.peer (PeerServiceParams.create
          (CreatePeerParams.mk "key" "localhost" "peer_id" true)))).result =
      Except.error (Error.LocalError "error")) = false :=
  ⟨rfl, by decide⟩

/-- C2 (amended): when the round trip of a recognized Peer request
returns an error e, General::execute returns e unchanged to its caller
after exactly one round trip, while Create::execute replaces the bridge
error with a LocalError whose message renders the request (still after
exactly one round trip). -/
theorem c2_error_propagation
    (regG : Request → Except Error general.ResponseResult)
    (regC : Request → Except Error Response)
    (inner : PeerServiceParams) (fns : Option Functions) (e : Error)
    (hG : regG (Request.peer inner) = Except.error e)
    (hC : regC (Request.peer inner) = Except.error e) :
    General.execute regG (RequestDto.peer inner) =
      GeneralRun.mk (Except.error e) [Request.peer inner] ∧
    Create.execute fns regC (RequestDto.peer inner) =
      CreateRun.mk (Except.error (Error.LocalError ("wrong parameter " ++
        (RequestDto.peer inner).debugFmt))) [Request.peer inner] [] := by
  constructor
  · simp [General.execute, hG]
  · simp [Create.execute, hC]

/-- C2 witness: the amended error-propagation theorem at a concrete Peer
request and the concrete bridge error LocalError error. -/
theorem c2_error_propagation_witness :
    General.execute (fun _ => Except.error (Error.LocalError "error"))
        (RequestDto.peer (PeerServiceParams.delete (DeletePeerParams.mk "p" "t"))) =
      GeneralRun.mk (Except.error (Error.LocalError "error"))
        [Request.peer (PeerServiceParams.delete (DeletePeerParams.mk "p" "t"))] ∧
    Create.execute none (fun _ => Except.error (Error.LocalError "error"))
        (RequestDto.peer (PeerServiceParams.delete (DeletePeerParams.mk "p" "t"))) =
      CreateRun.mk (Except.error (Error.LocalError ("wrong parameter " ++
        (RequestDto.peer (PeerServiceParams.delete
          (DeletePeerParams.mk "p" "t"))).debugFmt)))
        [Request.peer (PeerServiceParams.delete (DeletePeerParams.mk "p" "t"))] [] :=
  c2_error_propagation
    (fun _ => Except.error (Error.LocalError "error"))
    (fun _ => Except.error (Error.LocalError "error"))
    (PeerServiceParams.delete (DeletePeerParams.mk "p" "t"))
    none (Error.LocalError "error") rfl rfl

/-- C3: for every Request whose family/command is not a recognized
combination (any non-Peer RequestDto), both execute implementations
return a LocalError whose message is wrong parameter followed by the
rendering of the request, and the register trace is empty: the transport
is invoked zero times on the mismatch path. -/
theorem c3_unrecognized_no_side_effects
    (regG : Request → Except Error general.ResponseResult)
    (regC : Request → Except Error Response)
    (fns : Option Functions) (m : RequestDto)
    (h : ∀ inner, decide (m = RequestDto.peer inner) = false) :
    General.execute regG m =
      GeneralRun.mk (Except.error (Error.LocalError
        ("wrong parameter " ++ m.debugFmt))) [] ∧
    Create.execute fns regC m =
      CreateRun.mk (Except.error (Error.LocalError
        ("wrong parameter " ++ m.debugFmt))) [] [] := by
  cases m with
  | peer inner =>
    have := h inner
    simp at this
  | data raw => exact ⟨rfl, rfl⟩
  | media raw => exact ⟨rfl, rfl⟩
  | test => exact ⟨rfl, rfl⟩

/-- C3 witness: the mismatch theorem at the concrete unrecognized
request Test (the request the unit tests of the source use). -/
theorem c3_unrecognized_witness :
    General.execute (fun _ => Except.error (Error.LocalError "unused"))
        RequestDto.test =
      GeneralRun.mk (Except.error (Error.LocalError
        ("wrong parameter " ++ RequestDto.test.debugFmt))) [] ∧
    Create.execute none (fun _ => Except.error (Error.LocalError "unused"))
        RequestDto.test =
      CreateRun.mk (Except.error (Error.LocalError
        ("wrong parameter " ++ RequestDto.test.debugFmt))) [] [] :=
  c3_unrecognized_no_side_effects
    (fun _ => Except.error (Error.LocalError "unused"))
    (fun _ => Except.error (Error.LocalError "unused"))
    none RequestDto.test (fun _ => rfl)

/-- C4 counterexample: when the command channel is closed before send,
register returns LocalError could not send request to skyway crate, not
the message could not send request to backend stated by the claim. -/
theorem c4_counterexample :
    (RepositoryImpl.register false none
        (Request.peer (PeerServiceParams.delete (DeletePeerParams.mk "p" "t")))).result =
      Except.error (Error.LocalError "could not send request to skyway crate") ∧
    decide ((RepositoryImpl.register false none
        (Request.peer (PeerServiceParams.delete (DeletePeerParams.mk "p" "t")))).result =
      Except.error (Error.LocalError "could not send request to backend")) = false :=
  ⟨rfl, by decide⟩

/-- C4 (amended): for every Request, if sending on the command channel
fails because the channel is closed, register returns LocalError could
not send request to skyway crate, and the send trace has exactly one
entry (the serialized request): no retry is performed. -/
theorem c4_send_failure (slot : Option Payload) (req : Request) :
    RepositoryImpl.register false slot req =
      RegisterRun.mk
        (Except.error (Error.LocalError "could not send request to skyway crate"))
        [req.to_string] :=
  rfl

/-- C5 counterexample: when the correlation slot sender is dropped
without a value, register returns LocalError could not receive response
from skyway crate, not the message could not receive response from
backend stated by the claim. -/
theorem c5_counterexample :
    (RepositoryImpl.register true none
        (Request.peer (PeerServiceParams.delete (DeletePeerParams.mk "p" "t")))).result =
      Except.error (Error.LocalError "could not receive response from skyway crate") ∧
    decide ((RepositoryImpl.register true none
        (Request.peer (PeerServiceParams.delete (DeletePeerParams.mk "p" "t")))).result =
      Except.error (Error.LocalError "could not receive response from backend")) = false :=
  ⟨rfl, by decide⟩

/-- C5 (amended): for every Request, if the correlation slot sender side
is dropped without ever being filled, register returns LocalError could
not receive response from skyway crate, after exactly one send. -/
theorem c5_no_reply (req : Request) :
    RepositoryImpl.register true none req =
      RegisterRun.mk
        (Except.error (Error.LocalError "could not receive response from skyway crate"))
        [req.to_string] :=
  rfl

/-- C6: for every Request, when the worker fills the correlation slot
with a payload that fails to parse as a Response, register returns the
DecodeError (Error.SerdeError) wrapping the parse failure; the outcome
equals the SerdeError constructor applied to the failure, so it is never
a LocalError and callers can distinguish no answer from garbled answer. -/
theorem c6_decode_error (req : Request) (raw : String) :
    (RepositoryImpl.register true (some (Payload.malformed raw)) req).result =
      Except.error (Error.SerdeError raw) ∧
    (∀ m : String, decide ((RepositoryImpl.register true
        (some (Payload.malformed raw)) req).result =
      Except.error (Error.LocalError m)) = false) :=
  ⟨rfl, fun _ => rfl⟩

/-- Step lemma for the event drain loop: while the shutdown flag stays
false, each timeout outcome advances the loop one iteration without
producing a result. -/
theorem receiveEventGo_timeout_steps (sd : Nat → Bool) (k : Nat) :
    ∀ (i : Nat) (rest : List PollOutcome),
    (∀ j, j < k → sd (i + j) = false) →
    RepositoryImpl.receiveEventGo sd i
        (List.replicate k PollOutcome.timeout ++ rest) =
      RepositoryImpl.receiveEventGo sd (i + k) rest := by
  induction k with
  | zero => intro i rest _; simp
  | succ n ih =>
    intro i rest h
    have h0 : sd i = false := by simpa using h 0 (Nat.succ_pos n)
    have hrec := ih (i + 1) rest (fun j hj => by
      have := h (j + 1) (Nat.succ_lt_succ hj)
      simpa [Nat.add_assoc, Nat.add_comm 1 j] using this)
    rw [List.replicate_succ, List.cons_append]
    calc RepositoryImpl.receiveEventGo sd i
          (PollOutcome.timeout :: (List.replicate n PollOutcome.timeout ++ rest))
        = RepositoryImpl.receiveEventGo sd (i + 1)
            (List.replicate n PollOutcome.timeout ++ rest) := by
          simp [RepositoryImpl.receiveEventGo, h0]
      _ = RepositoryImpl.receiveEventGo sd (i + 1 + n) rest := hrec
      _ = RepositoryImpl.receiveEventGo sd (i + (n + 1)) rest := by
          rw [Nat.add_assoc, Nat.add_comm 1 n]

/-- C7: while the program is not shutting down, receive_event returns on
the first payload delivered on the event channel (after any number of
timeout polls): the decode result of that payload is returned
immediately; and once the event channel producer is dropped,
receive_event returns LocalError receiver is closed. -/
theorem c7_first_event (k : Nat) (sd : Nat → Bool) (p : Payload)
    (rest : List PollOutcome) (h : ∀ i, i ≤ k → sd i = false) :
    RepositoryImpl.receive_event sd
        (List.replicate k PollOutcome.timeout ++ (PollOutcome.value p :: rest)) =
      some (Response.from_str p) ∧
    RepositoryImpl.receive_event sd
        (List.replicate k PollOutcome.timeout ++ (PollOutcome.closed :: rest)) =
      some (Except.error (Error.LocalError "receiver is closed")) := by
  have hk : sd k = false := h k (Nat.le_refl k)
  have hsteps : ∀ tail, RepositoryImpl.receiveEventGo sd 0
      (List.replicate k PollOutcome.timeout ++ tail) =
      RepositoryImpl.receiveEventGo sd k tail := by
    intro tail
    have := receiveEventGo_timeout_steps sd k 0 tail
      (fun j hj => by simpa using h j (Nat.le_of_lt hj))
    simpa using this
  constructor
  · unfold RepositoryImpl.receive_event
    rw [hsteps]
    simp [RepositoryImpl.receiveEventGo, hk]
  · unfold RepositoryImpl.receive_event
    rw [hsteps]
    simp [RepositoryImpl.receiveEventGo, hk]

/-- C7 witness: after one timeout poll with the shutdown flag false, a
delivered payload is decoded and returned, and a closed channel yields
LocalError receiver is closed. -/
theorem c7_first_event_witness :
    RepositoryImpl.receive_event (fun _ => false)
        (List.replicate 1 PollOutcome.timeout ++
          (PollOutcome.value (Payload.wellFormed (Response.error "E")) :: [])) =
      some (Response.from_str (Payload.wellFormed (Response.error "E"))) ∧
    RepositoryImpl.receive_event (fun _ => false)
        (List.replicate 1 PollOutcome.timeout ++ (PollOutcome.closed :: [])) =
      some (Except.error (Error.LocalError "receiver is closed")) :=
  c7_first_event 1 (fun _ => false)
    (Payload.wellFormed (Response.error "E")) [] (fun _ _ => rfl)

/-- Exit lemma for the event drain loop: whenever the shutdown flag is
observed true at the head of an iteration, the loop returns the shutdown
LocalError regardless of any outcomes still queued. -/
theorem receiveEventGo_shutdown (sd : Nat → Bool) (i : Nat)
    (polls : List PollOutcome) (h : sd i = true) :
    RepositoryImpl.receiveEventGo sd i polls =
      some (Except.error (Error.LocalError "ros has been shut down")) := by
  cases polls with
  | nil => simp [RepositoryImpl.receiveEventGo, h]
  | cons p rest => cases p <;> simp [RepositoryImpl.receiveEventGo, h]

/-- C8 counterexample: when the polling loop exits because the shutdown
flag is observed, receive_event returns LocalError ros has been shut
down, not the message worker has been shut down stated by the claim. -/
theorem c8_counterexample :
    RepositoryImpl.receive_event (fun _ => true) [] =
      some (Except.error (Error.LocalError "ros has been shut down")) ∧
    decide (RepositoryImpl.receive_event (fun _ => true) [] =
      some (Except.error (Error.LocalError "worker has been shut down"))) = false :=
  ⟨rfl, by decide⟩

/-- C8 (amended): when the polling loop exits because Program Status
reports shutting-down at iteration k (after k timeout polls with the
flag false, and before any event arrived), receive_event returns
LocalError ros has been shut down. -/
theorem c8_shutdown_message (k : Nat) (sd : Nat → Bool)
    (rest : List PollOutcome)
    (h : ∀ i, i < k → sd i = false) (hk : sd k = true) :
    RepositoryImpl.receive_event sd
        (List.replicate k PollOutcome.timeout ++ rest) =
      some (Except.error (Error.LocalError "ros has been shut down")) := by
  unfold RepositoryImpl.receive_event
  have := receiveEventGo_timeout_steps sd k 0 rest
    (fun j hj => by simpa using h j hj)
  rw [Nat.zero_add] at this
  rw [this]
  exact receiveEventGo_shutdown sd k rest hk

/-- C8 witness: the shutdown flag observed true at the first iteration
ends the loop with the shutdown LocalError even though an outcome is
still queued. -/
theorem c8_shutdown_message_witness :
    RepositoryImpl.receive_event (fun _ => true)
        (List.replicate 0 PollOutcome.timeout ++ [PollOutcome.closed]) =
      some (Except.error (Error.LocalError "ros has been shut down")) :=
  c8_shutdown_message 0 (fun _ => true) [PollOutcome.closed]
    (fun i hi => absurd hi (Nat.not_lt_zero i)) rfl

/-- C9: each of the two independent keyed stores provides store, find
and remove; find after store of the same key returns the stored value,
and find after remove of the key returns nothing, in both the
data-connection store and the media-connection store. -/
theorem c9_store_find_remove (s : GlobalStateData)
    (dk : DataConnectionId) (dv : DataConnectionResponse)
    (ck : MediaConnectionId) (cv : CallResponseDto) :
    GlobalStateImpl.find_topic (GlobalStateImpl.store_topic s dk dv) dk = some dv ∧
    GlobalStateImpl.find_topic (GlobalStateImpl.remove_topic s dk) dk = none ∧
    GlobalStateImpl.find_call_response
      (GlobalStateImpl.store_call_response s ck cv) ck = some cv ∧
    GlobalStateImpl.find_call_response
      (GlobalStateImpl.remove_call_response s ck) ck = none := by
  refine ⟨?_, ?_, ?_, ?_⟩ <;>
    simp [GlobalStateImpl.find_topic, GlobalStateImpl.store_topic,
      GlobalStateImpl.remove_topic, GlobalStateImpl.find_call_response,
      GlobalStateImpl.store_call_response, GlobalStateImpl.remove_call_response]

/-- C10: for a create-peer request whose round trip yields the
Peer-Create success response, Create::execute returns that Success
response even when FUNCTIONS_INSTANCE was never filled: the callback
trace is empty and the returned result is identical to the one produced
with the callback table in place. -/
theorem c10_callback_skip (regC : Request → Except Error Response)
    (inner : PeerServiceParams) (info : PeerInfo) (f : Functions)
    (h : regC (Request.peer inner) =
      Except.ok (Response.success (ResponseMessageBodyEnum.peer
        (PeerResponseMessageBodyEnum.create info)))) :
    (Create.execute none regC (RequestDto.peer inner)).result =
      Except.ok (ResponseDto.success (ResponseDtoMessageBodyEnum.peer
        (PeerDtoResponseMessageBodyEnum.create info))) ∧
    (Create.execute none regC (RequestDto.peer inner)).callbacks = [] ∧
    (Create.execute none regC (RequestDto.peer inner)).result =
      (Create.execute (some f) regC (RequestDto.peer inner)).result ∧
    (Create.execute (some f) regC (RequestDto.peer inner)).callbacks =
      [(info.peer_id, info.token)] := by
  refine ⟨?_, ?_, ?_, ?_⟩ <;> simp [Create.execute, h]

/-- C10 witness: the callback-skip theorem at a concrete create-peer
request and a concrete Peer-Create success reply. -/
theorem c10_callback_skip_witness :
    (Create.execute none
        (fun _ => Except.ok (Response.success (ResponseMessageBodyEnum.peer
          (PeerResponseMessageBodyEnum.create (PeerInfo.mk "data_caller" "pt-x")))))
        (RequestDto.peer (PeerServiceParams.create
          (CreatePeerParams.mk "key" "localhost" "peer_id" true)))).result =
      Except.ok (ResponseDto.success (ResponseDtoMessageBodyEnum.peer
        (PeerDtoResponseMessageBodyEnum.create (PeerInfo.mk "data_caller" "pt-x")))) ∧
    (Create.execute none
        (fun _ => Except.ok (Response.success (ResponseMessageBodyEnum.peer
          (PeerResponseMessageBodyEnum.create (PeerInfo.mk "data_caller" "pt-x")))))
        (RequestDto.peer (PeerServiceParams.create
          (CreatePeerParams.mk "key" "localhost" "peer_id" true)))).callbacks = [] ∧
    (Create.execute none
        (fun _ => Except.ok (Response.success (ResponseMessageBodyEnum.peer
          (PeerResponseMessageBodyEnum.create (PeerInfo.mk "data_caller" "pt-x")))))
        (RequestDto.peer (PeerServiceParams.create
          (CreatePeerParams.mk "key" "localhost" "peer_id" true)))).result =
      (Create.execute (some Functions.mk)
        (fun _ => Except.ok (Response.success (ResponseMessageBodyEnum.peer
          (PeerResponseMessageBodyEnum.create (PeerInfo.mk "data_caller" "pt-x")))))
        (RequestDto.peer (PeerServiceParams.create
          (CreatePeerParams.mk "key" "localhost" "peer_id" true)))).result ∧
    (Create.execute (some Functions.mk)
        (fun _ => Except.ok (Response.success (ResponseMessageBodyEnum.peer
          (PeerResponseMessageBodyEnum.create (PeerInfo.mk "data_caller" "pt-x")))))
        (RequestDto.peer (PeerServiceParams.create
          (CreatePeerParams.mk "key" "localhost" "peer_id" true)))).callbacks =
      [("data_caller", "pt-x")] :=
  c10_callback_skip
    (fun _ => Except.ok (Response.success (ResponseMessageBodyEnum.peer
      (PeerResponseMessageBodyEnum.create (PeerInfo.mk "data_caller" "pt-x")))))
    (PeerServiceParams.create (CreatePeerParams.mk "key" "localhost" "peer_id" true))
    (PeerInfo.mk "data_caller" "pt-x") Functions.mk rfl
